import Mathlib

/-!
Shallow embedding of the token-lifecycle utility of the tone-3000 demo client
(the exported function t3kFetch and the storage part of handleAuth in the main
App component). Machine effects are made explicit:

* localStorage is a `Store` of four optional string entries (the three session
  keys plus the incidental api_key cache);
* successive readings of Date.now are supplied by an environment clock stream;
* each outbound fetch consumes the next element of the corresponding
  environment stream (refresh POST results, GET statuses) and is recorded in an
  event trace, as is the redirect of the user agent;
* a thrown JS error becomes an `Except.error` value.
-/

namespace T3k

/-- The Session body returned by the auth endpoints (access_token,
refresh_token, expires_in seconds). The constant token_type field is dropped. -/
structure Session where
  access_token : String
  refresh_token : String
  expires_in : Int
deriving Repr, DecidableEq

/-- The localStorage entries the component touches: the three persisted session
keys tone3000_access_token, tone3000_refresh_token, tone3000_expires_at, and
the incidental tone3000_api_key cache. `none` models an absent key. -/
structure Store where
  access_token : Option String
  refresh_token : Option String
  expires_at : Option String
  api_key : Option String
deriving Repr, DecidableEq

/-- Observable outbound effects of a call, in order of occurrence. -/
inductive Event where
  /-- POST to the session-refresh endpoint with the given body fields. -/
  | refreshPost (refresh_token : String) (access_token : String)
  /-- GET to the given url with the given Authorization header value. -/
  | getReq (url : String) (auth : String)
  /-- assignment to window.location.href. -/
  | redirect (href : String)
deriving Repr, DecidableEq

/-- An HTTP response as far as t3kFetch inspects it: its status code. -/
structure Resp where
  status : Nat
deriving Repr, DecidableEq

/-- The environment: what the clock and the network answer. The i-th Date.now
call reads `clock i`; the i-th refresh POST gets `refreshResults i` (`none` is
a non-ok response, `some s` an ok response with body `s`); the i-th GET to the
caller url gets status `getStatuses i`; `sessionResult` answers the api_key
exchange POST of handleAuth. -/
structure Env where
  clock : Nat → Int
  refreshResults : Nat → Option Session
  getStatuses : Nat → Nat
  sessionResult : Option Session

/-- Program state threaded through a run: the store, the consumption counters
of the three environment streams, and the trace of emitted events. -/
structure St where
  store : Store
  clockIdx : Nat
  refreshIdx : Nat
  getIdx : Nat
  trace : List Event
deriving Repr, DecidableEq

/-- Initial state for a call: a given store, nothing consumed, empty trace. -/
def initSt (store : Store) : St :=
  ⟨store, 0, 0, 0, []⟩

/-- Errors t3kFetch can throw to its caller: the missing-access-token throw of
line 130, and the catch-all rethrow of both try blocks (which swallows the
inner missing-refresh-token and refresh-failed throws). -/
inductive T3kError where
  | noAccessToken
  | authFailed
deriving Repr, DecidableEq

/-- JS truthiness of a localStorage read: null and the empty string are falsy,
every other string is truthy. -/
def truthy : Option String → Bool
  | none => false
  | some s => s ≠ ""

/-- JS `x || d` on a localStorage read: the default replaces null and "". -/
def jsOrStr : Option String → String → String
  | none, d => d
  | some s, d => if s = "" then d else s

/-- Drop leading whitespace, as parseInt does before reading the number. -/
def skipWs : List Char → List Char
  | [] => []
  | c :: cs => if c.isWhitespace then skipWs cs else c :: cs

/-- Longest digit prefix of a character list. -/
def takeDigits : List Char → List Char
  | [] => []
  | c :: cs => if c.isDigit then c :: takeDigits cs else []

/-- Decimal value of a digit list. -/
def digitsToNat (cs : List Char) : Nat :=
  cs.foldl (fun acc c => acc * 10 + (c.toNat - 48)) 0

/-- JS parseInt with no radix argument, on the decimal fragment it is used for
here: skip leading whitespace, optional sign, value of the longest digit
prefix, trailing characters ignored; `none` models NaN (no leading digit). The
hex 0x prefix branch of parseInt is not modelled: no value stored or compared
by this code can carry it. -/
def parseIntJS (s : String) : Option Int :=
  match skipWs s.toList with
  | '-' :: rest =>
      let ds := takeDigits rest
      if ds = [] then none else some (-(digitsToNat ds : Int))
  | '+' :: rest =>
      let ds := takeDigits rest
      if ds = [] then none else some ((digitsToNat ds : Int))
  | cs =>
      let ds := takeDigits cs
      if ds = [] then none else some ((digitsToNat ds : Int))

/-- Line 127: parseInt(localStorage.getItem(tone3000_expires_at) || "0"). -/
def readExpiresAt (store : Store) : Option Int :=
  parseIntJS (jsOrStr store.expires_at "0")

/-- Line 134: Date.now() > expiresAt - 30000. A NaN expiresAt (`none`) makes
the JS comparison false. -/
def needsProactive (now : Int) : Option Int → Bool
  | none => false
  | some e => decide (now > e - 30000)

/-- The API domain constant (default, no env override). -/
def API_DOMAIN : String := "https://www.tone3000.com"

/-- encodeURIComponent("http://localhost:3001"), as in line 7. -/
def redirectUrl : String := "http%3A%2F%2Flocalhost%3A3001"

/-- The login redirect target used on refresh failure (lines 159 and 212). -/
def authUrl : String := API_DOMAIN ++ "/api/v1/auth?redirect_url=" ++ redirectUrl

/-- Read the next Date.now value from the environment clock stream. -/
def dateNow (env : Env) (st : St) : Int × St :=
  (env.clock st.clockIdx, { st with clockIdx := st.clockIdx + 1 })

/-- Append an observable event to the trace. -/
def emit (e : Event) (st : St) : St :=
  { st with trace := st.trace ++ [e] }

/-- The three removeItem calls of lines 155-157 / 208-210: clear the session
keys; the api_key cache is not touched. -/
def clearTokens (store : Store) : Store :=
  { store with access_token := none, refresh_token := none, expires_at := none }

/-- The three setItem calls of lines 166-168 / 219-221 / 267-269: store the new
session, with expires_at the string of `now + expires_in * 1000`. -/
def putSession (store : Store) (s : Session) (now : Int) : Store :=
  { store with
      access_token := some s.access_token,
      refresh_token := some s.refresh_token,
      expires_at := some (toString (now + s.expires_in * 1000)) }

/-- The refresh sub-procedure shared by the proactive block (lines 137-171) and
the reactive block (lines 190-221): read the refresh token (throw if falsy),
POST both tokens to the refresh endpoint; on a non-ok response clear the
session keys, redirect to the auth entry point and throw; on an ok response
store the new session (recomputing expires_at from a fresh Date.now) and
return the new access token. -/
def refreshStep (env : Env) (accessToken : String) (st : St) :
    Except Unit String × St :=
  if truthy st.store.refresh_token = false then
    (Except.error (), st)
  else
    let rt := st.store.refresh_token.getD ""
    let st1 := emit (Event.refreshPost rt accessToken) st
    let res := env.refreshResults st1.refreshIdx
    let st2 := { st1 with refreshIdx := st1.refreshIdx + 1 }
    match res with
    | none =>
        let st3 := { st2 with store := clearTokens st2.store }
        let st4 := emit (Event.redirect authUrl) st3
        (Except.error (), st4)
    | some tokens =>
        let p := dateNow env st2
        let st4 := { p.2 with store := putSession p.2.store tokens p.1 }
        (Except.ok tokens.access_token, st4)

/-- Lines 178-238 of t3kFetch, from the point where the access token for the
request is fixed: GET the url with the Bearer header; if the status is exactly
401, refresh once (a throw inside that try block becomes the
authentication-failed error) and reissue the identical GET once with the new
token, returning the second response whatever its status; any other first
status is returned directly. -/
def afterGetToken (env : Env) (url : String) (a1 : String) (st : St) :
    Except T3kError Resp × St :=
  let st3 := emit (Event.getReq url ("Bearer " ++ a1)) st
  let status := env.getStatuses st3.getIdx
  let st4 := { st3 with getIdx := st3.getIdx + 1 }
  if status = 401 then
    match refreshStep env a1 st4 with
    | (Except.error _, st5) => (Except.error T3kError.authFailed, st5)
    | (Except.ok newTok, st5) =>
        let st6 := emit (Event.getReq url ("Bearer " ++ newTok)) st5
        (Except.ok (Resp.mk (env.getStatuses st6.getIdx)),
          { st6 with getIdx := st6.getIdx + 1 })
  else
    (Except.ok (Resp.mk status), st4)

/-- t3kFetch (lines 125-238): read the access token (throw if falsy); if
Date.now() > expiresAt - 30000 refresh proactively (any throw inside that try
block is caught and rethrown as the authentication-failed error, so a failed
proactive refresh short-circuits the call); then proceed to the GET and the
reactive 401 handling of `afterGetToken`. -/
def t3kFetch (env : Env) (url : String) (st : St) : Except T3kError Resp × St :=
  let expiresAt := readExpiresAt st.store
  if truthy st.store.access_token = false then
    (Except.error T3kError.noAccessToken, st)
  else
    let a0 := st.store.access_token.getD ""
    let p0 := dateNow env st
    if needsProactive p0.1 expiresAt then
      match refreshStep env a0 p0.2 with
      | (Except.error _, st2) => (Except.error T3kError.authFailed, st2)
      | (Except.ok newTok, st2) => afterGetToken env url newTok st2
    else
      afterGetToken env url a0 p0.2

/-- The storage part of handleAuth (lines 254-273): POST the api_key to the
session endpoint; a non-ok response throws; an ok response stores the session
with expires_at recomputed from a fresh Date.now. -/
def handleAuth (env : Env) (st : St) : Except Unit Unit × St :=
  match env.sessionResult with
  | none => (Except.error (), st)
  | some s =>
      let p := dateNow env st
      let st2 := { p.2 with store := putSession p.2.store s p.1 }
      (Except.ok (), st2)

/-- Whether an event is a GET to the caller url. -/
def isGet : Event → Bool
  | Event.getReq _ _ => true
  | _ => false

/-- Whether an event is a refresh POST. -/
def isRefresh : Event → Bool
  | Event.refreshPost _ _ => true
  | _ => false

/-- Number of GETs in a trace. -/
def numGets (t : List Event) : Nat :=
  t.countP isGet

/-- Number of refresh POSTs in a trace. -/
def numRefreshes (t : List Event) : Nat :=
  t.countP isRefresh

/-- Number of refresh POSTs issued before the first GET of a trace. -/
def refreshesBeforeFirstGet (t : List Event) : Nat :=
  numRefreshes (t.takeWhile (fun e => !isGet e))

/-- Number of refresh POSTs issued at or after the first GET of a trace. -/
def refreshesFromFirstGet (t : List Event) : Nat :=
  numRefreshes (t.dropWhile (fun e => !isGet e))

/-- Whether all three persisted session keys are absent from the store. -/
def sessionCleared (store : Store) : Bool :=
  store.access_token.isNone && store.refresh_token.isNone && store.expires_at.isNone

/-! ### Characterization lemmas: one per control-flow path -/

lemma truthy_some_ne (s : String) (h : s ≠ "") : truthy (some s) = true := by
  simp [truthy, h]

lemma refreshStep_noToken (env : Env) (a : String) (st : St)
    (h : truthy st.store.refresh_token = false) :
    refreshStep env a st = (Except.error (), st) := by
  unfold refreshStep
  rw [if_pos h]

lemma refreshStep_fail (env : Env) (a rt : String) (st : St)
    (hR : st.store.refresh_token = some rt) (hrt : rt ≠ "")
    (hres : env.refreshResults st.refreshIdx = none) :
    refreshStep env a st =
      (Except.error (),
        { st with store := clearTokens st.store,
                  refreshIdx := st.refreshIdx + 1,
                  trace := st.trace ++
                    [Event.refreshPost rt a, Event.redirect authUrl] }) := by
  unfold refreshStep
  rw [hR, if_neg (by simp [truthy_some_ne rt hrt])]
  simp [emit, hres]

lemma refreshStep_ok (env : Env) (a rt : String) (s : Session) (st : St)
    (hR : st.store.refresh_token = some rt) (hrt : rt ≠ "")
    (hres : env.refreshResults st.refreshIdx = some s) :
    refreshStep env a st =
      (Except.ok s.access_token,
        { st with store := putSession st.store s (env.clock st.clockIdx),
                  clockIdx := st.clockIdx + 1,
                  refreshIdx := st.refreshIdx + 1,
                  trace := st.trace ++ [Event.refreshPost rt a] }) := by
  unfold refreshStep
  rw [hR, if_neg (by simp [truthy_some_ne rt hrt])]
  simp [emit, hres, dateNow]

lemma afterGetToken_not401 (env : Env) (url a1 : String) (st : St)
    (h : ¬ env.getStatuses st.getIdx = 401) :
    afterGetToken env url a1 st =
      (Except.ok (Resp.mk (env.getStatuses st.getIdx)),
       { st with getIdx := st.getIdx + 1,
                 trace := st.trace ++ [Event.getReq url ("Bearer " ++ a1)] }) := by
  unfold afterGetToken
  simp only [emit]
  rw [if_neg h]

lemma afterGetToken_401_noToken (env : Env) (url a1 : String) (st : St)
    (h : env.getStatuses st.getIdx = 401)
    (hT : truthy st.store.refresh_token = false) :
    afterGetToken env url a1 st =
      (Except.error T3kError.authFailed,
       { st with getIdx := st.getIdx + 1,
                 trace := st.trace ++ [Event.getReq url ("Bearer " ++ a1)] }) := by
  unfold afterGetToken
  simp only [emit]
  rw [if_pos h, refreshStep_noToken env a1 _ (by simpa using hT)]

lemma afterGetToken_401_fail (env : Env) (url a1 rt : String) (st : St)
    (h : env.getStatuses st.getIdx = 401)
    (hR : st.store.refresh_token = some rt) (hrt : rt ≠ "")
    (hres : env.refreshResults st.refreshIdx = none) :
    afterGetToken env url a1 st =
      (Except.error T3kError.authFailed,
       { st with store := clearTokens st.store,
                 refreshIdx := st.refreshIdx + 1,
                 getIdx := st.getIdx + 1,
                 trace := st.trace ++ [Event.getReq url ("Bearer " ++ a1),
                   Event.refreshPost rt a1, Event.redirect authUrl] }) := by
  unfold afterGetToken
  simp only [emit]
  rw [if_pos h,
    refreshStep_fail env a1 rt _ (by simpa using hR) hrt (by simpa using hres)]
  simp

lemma afterGetToken_401_ok (env : Env) (url a1 rt : String) (s : Session) (st : St)
    (h : env.getStatuses st.getIdx = 401)
    (hR : st.store.refresh_token = some rt) (hrt : rt ≠ "")
    (hres : env.refreshResults st.refreshIdx = some s) :
    afterGetToken env url a1 st =
      (Except.ok (Resp.mk (env.getStatuses (st.getIdx + 1))),
       { st with store := putSession st.store s (env.clock st.clockIdx),
                 clockIdx := st.clockIdx + 1,
                 refreshIdx := st.refreshIdx + 1,
                 getIdx := st.getIdx + 1 + 1,
                 trace := st.trace ++ [Event.getReq url ("Bearer " ++ a1),
                   Event.refreshPost rt a1,
                   Event.getReq url ("Bearer " ++ s.access_token)] }) := by
  unfold afterGetToken
  simp only [emit]
  rw [if_pos h,
    refreshStep_ok env a1 rt s _ (by simpa using hR) hrt (by simpa using hres)]
  simp

lemma t3kFetch_noAccess (env : Env) (url : String) (st : St)
    (h : truthy st.store.access_token = false) :
    t3kFetch env url st = (Except.error T3kError.noAccessToken, st) := by
  unfold t3kFetch
  rw [if_pos h]

lemma t3kFetch_noProactive (env : Env) (url : String) (st : St) (a : String)
    (hA : st.store.access_token = some a) (ha : a ≠ "")
    (hnp : needsProactive (env.clock st.clockIdx) (readExpiresAt st.store) = false) :
    t3kFetch env url st =
      afterGetToken env url a { st with clockIdx := st.clockIdx + 1 } := by
  unfold t3kFetch
  rw [hA, if_neg (by simp [truthy_some_ne a ha])]
  simp only [Option.getD_some, dateNow]
  rw [if_neg (by simp [hnp])]

lemma t3kFetch_proactive (env : Env) (url : String) (st : St) (a : String)
    (hA : st.store.access_token = some a) (ha : a ≠ "")
    (hnp : needsProactive (env.clock st.clockIdx) (readExpiresAt st.store) = true) :
    t3kFetch env url st =
      match refreshStep env a { st with clockIdx := st.clockIdx + 1 } with
      | (Except.error _, st2) => (Except.error T3kError.authFailed, st2)
      | (Except.ok newTok, st2) => afterGetToken env url newTok st2 := by
  unfold t3kFetch
  rw [hA, if_neg (by simp [truthy_some_ne a ha])]
  simp only [Option.getD_some, dateNow]
  rw [if_pos (by simp [hnp])]

/-! ### Helper lemmas about run traces -/

lemma refreshStep_trace (env : Env) (a : String) (st : St) :
    ∃ suf, (refreshStep env a st).2.trace = st.trace ++ suf := by
  unfold refreshStep
  by_cases h : truthy st.store.refresh_token = false
  · exact ⟨[], by simp [h]⟩
  · rw [if_neg h]
    rcases hres : env.refreshResults st.refreshIdx with _ | s
    · refine ⟨[Event.refreshPost (st.store.refresh_token.getD "") a,
        Event.redirect authUrl], ?_⟩
      simp [emit, hres]
    · refine ⟨[Event.refreshPost (st.store.refresh_token.getD "") a], ?_⟩
      simp [emit, hres, dateNow]

lemma afterGetToken_trace (env : Env) (url a1 : String) (st : St) :
    ∃ suf, (afterGetToken env url a1 st).2.trace =
      st.trace ++ Event.getReq url ("Bearer " ++ a1) :: suf := by
  unfold afterGetToken
  simp only [emit]
  by_cases h : env.getStatuses st.getIdx = 401
  · rw [if_pos h]
    obtain ⟨suf, hsuf⟩ := refreshStep_trace env a1
      { store := st.store, clockIdx := st.clockIdx, refreshIdx := st.refreshIdx,
        getIdx := st.getIdx + 1,
        trace := st.trace ++ [Event.getReq url ("Bearer " ++ a1)] }
    rcases hrs : refreshStep env a1
      { store := st.store, clockIdx := st.clockIdx, refreshIdx := st.refreshIdx,
        getIdx := st.getIdx + 1,
        trace := st.trace ++ [Event.getReq url ("Bearer " ++ a1)] } with ⟨res, st5⟩
    rw [hrs] at hsuf
    simp only at hsuf
    cases res with
    | error u => exact ⟨suf, by simp [hrs, hsuf]⟩
    | ok newTok =>
        exact ⟨suf ++ [Event.getReq url ("Bearer " ++ newTok)],
          by simp [hrs, emit, hsuf]⟩
  · rw [if_neg h]
    exact ⟨[], by simp⟩

lemma refreshesBeforeFirstGet_append_get (u b : String) (pre suf : List Event)
    (hpre : ∀ ev ∈ pre, isGet ev = false) :
    refreshesBeforeFirstGet (pre ++ Event.getReq u b :: suf) = numRefreshes pre := by
  induction pre with
  | nil => simp [refreshesBeforeFirstGet, numRefreshes, isGet]
  | cons x xs ih =>
      have hx : isGet x = false := hpre x (List.mem_cons_self _ _)
      have hxs : ∀ ev ∈ xs, isGet ev = false :=
        fun ev hev => hpre ev (List.mem_cons_of_mem _ hev)
      simp only [refreshesBeforeFirstGet, numRefreshes] at ih ⊢
      rw [List.cons_append, List.takeWhile_cons]
      simp only [hx, Bool.not_false, if_true, List.countP_cons, ih hxs]

lemma refreshesBeforeFirstGet_afterGetToken (env : Env) (url a1 : String) (st : St)
    (hpre : ∀ ev ∈ st.trace, isGet ev = false) :
    refreshesBeforeFirstGet (afterGetToken env url a1 st).2.trace =
      numRefreshes st.trace := by
  obtain ⟨suf, hsuf⟩ := afterGetToken_trace env url a1 st
  rw [hsuf]
  exact refreshesBeforeFirstGet_append_get _ _ _ _ hpre

lemma rbfg_t3kFetch (env : Env) (url : String) (store : Store) (a rt : String)
    (hA : store.access_token = some a) (ha : a ≠ "")
    (hR : store.refresh_token = some rt) (hrt : rt ≠ "") :
    refreshesBeforeFirstGet (t3kFetch env url (initSt store)).2.trace =
      (if needsProactive (env.clock 0) (readExpiresAt store) then 1 else 0) := by
  by_cases hc : needsProactive (env.clock 0) (readExpiresAt store) = true
  · rw [if_pos hc]
    rw [t3kFetch_proactive env url (initSt store) a hA ha (by simpa [initSt] using hc)]
    rcases hres : env.refreshResults 0 with _ | s
    · rw [refreshStep_fail env a rt _ (by simp [initSt, hR]) hrt
        (by simpa [initSt] using hres)]
      simp [initSt, refreshesBeforeFirstGet, numRefreshes, isGet, isRefresh]
    · rw [refreshStep_ok env a rt s _ (by simp [initSt, hR]) hrt
        (by simpa [initSt] using hres)]
      rw [refreshesBeforeFirstGet_afterGetToken]
      · simp [initSt, numRefreshes, isRefresh]
      · intro ev hev
        simp only [initSt, List.nil_append, List.mem_singleton] at hev
        simp [hev, isGet]
  · rw [if_neg hc]
    rw [t3kFetch_noProactive env url (initSt store) a hA ha
      (by simpa [initSt] using hc)]
    rw [refreshesBeforeFirstGet_afterGetToken]
    · simp [initSt, numRefreshes]
    · intro ev hev
      simp [initSt] at hev

/-! ### C1 -/

/-- C1: for a call with a complete stored session whose expires_at parses to
`e`, the number of refresh POSTs issued before the first GET (before any GET
at all when the refresh fails and no GET follows) is exactly one when the
Date.now reading satisfies `now > e - 30000`, and zero when `now <= e - 30000`:
the proactive refresh happens if and only if the 30-second margin is crossed,
and then exactly once. -/
theorem t3kFetch_proactive_margin (env : Env) (url : String) (store : Store)
    (a rt : String) (e : Int)
    (hA : store.access_token = some a) (ha : a ≠ "")
    (hR : store.refresh_token = some rt) (hrt : rt ≠ "")
    (hE : readExpiresAt store = some e) :
    refreshesBeforeFirstGet (t3kFetch env url (initSt store)).2.trace =
      (if env.clock 0 > e - 30000 then 1 else 0) := by
  rw [rbfg_t3kFetch env url store a rt hA ha hR hrt, hE]
  by_cases hc : env.clock 0 > e - 30000
  · rw [if_pos hc, if_pos (by simp [needsProactive, hc])]
  · rw [if_neg hc, if_neg (by simp [needsProactive, hc])]

/-- Witness for C1: a concrete call inside the 30-second window performs
exactly one proactive refresh before the GET. -/
theorem t3kFetch_proactive_margin_witness :
    refreshesBeforeFirstGet (t3kFetch
      ⟨fun _ => 5000000, fun _ => some ⟨"A2", "R2", 3600⟩, fun _ => 200, none⟩
      "https://www.tone3000.com/api/v1/user"
      (initSt ⟨some "A1", some "R1", some "4600000", none⟩)).2.trace =
      (if (5000000 : Int) > 4600000 - 30000 then 1 else 0) :=
  t3kFetch_proactive_margin _ _ _ "A1" "R1" 4600000 rfl (by decide) rfl
    (by decide) (by decide)

/-! ### C2 -/

/-- C2: for a call with a complete stored session whose first GET answers
exactly 401 and whose refresh POSTs succeed, the run issues exactly two GETs,
exactly one refresh POST at or after the first GET, the last event is the
reissued identical GET carrying the Bearer header of the access token the
(reactive) refresh returned, and the call returns the second response as-is,
whatever its status (in particular a second 401 is returned unmodified). -/
theorem t3kFetch_401_retry_once (env : Env) (url : String) (store : Store)
    (a rt : String) (e : Int) (s0 s1 : Session)
    (hA : store.access_token = some a) (ha : a ≠ "")
    (hR : store.refresh_token = some rt) (hrt : rt ≠ "")
    (hE : readExpiresAt store = some e)
    (h0 : env.refreshResults 0 = some s0) (h1 : env.refreshResults 1 = some s1)
    (hs0 : s0.refresh_token ≠ "")
    (h401 : env.getStatuses 0 = 401) :
    (t3kFetch env url (initSt store)).1 = Except.ok (Resp.mk (env.getStatuses 1)) ∧
    numGets (t3kFetch env url (initSt store)).2.trace = 2 ∧
    refreshesFromFirstGet (t3kFetch env url (initSt store)).2.trace = 1 ∧
    (t3kFetch env url (initSt store)).2.trace.getLast? =
      some (Event.getReq url ("Bearer " ++
        (if needsProactive (env.clock 0) (some e) then s1 else s0).access_token)) := by
  by_cases hc : needsProactive (env.clock 0) (some e) = true
  · rw [t3kFetch_proactive env url (initSt store) a hA ha (by simpa [initSt, hE] using hc)]
    rw [refreshStep_ok env a rt s0 _ (by simp [initSt, hR]) hrt (by simpa [initSt] using h0)]
    simp only [initSt, List.nil_append]
    rw [afterGetToken_401_ok env url s0.access_token s0.refresh_token s1 _
      (by simpa using h401) (by simp [putSession]) hs0 (by simpa using h1)]
    simp [hc, numGets, refreshesFromFirstGet, numRefreshes, isGet, isRefresh,
      List.getLast?]
  · rw [t3kFetch_noProactive env url (initSt store) a hA ha (by simpa [initSt, hE] using hc)]
    simp only [initSt]
    rw [afterGetToken_401_ok env url a rt s0 _
      (by simpa using h401) (by simpa using hR) hrt (by simpa using h0)]
    simp [hc, numGets, refreshesFromFirstGet, numRefreshes, isGet, isRefresh,
      List.getLast?]

/-- Witness for C2: concrete 401-then-retry run where the retry also answers
401 and is returned unmodified. -/
theorem t3kFetch_401_retry_once_witness :
    (t3kFetch ⟨fun _ => 1010000, fun i => some (if i = 0 then ⟨"A2", "R2", 3600⟩
        else ⟨"A3", "R3", 3600⟩), fun _ => 401, none⟩
      "https://www.tone3000.com/api/v1/user"
      (initSt ⟨some "A1", some "R1", some "4600000", none⟩)).1 =
      Except.ok (Resp.mk 401) ∧
    numGets (t3kFetch ⟨fun _ => 1010000, fun i => some (if i = 0 then ⟨"A2", "R2", 3600⟩
        else ⟨"A3", "R3", 3600⟩), fun _ => 401, none⟩
      "https://www.tone3000.com/api/v1/user"
      (initSt ⟨some "A1", some "R1", some "4600000", none⟩)).2.trace = 2 :=
  ⟨(t3kFetch_401_retry_once _ _ _ "A1" "R1" 4600000 ⟨"A2", "R2", 3600⟩
      ⟨"A3", "R3", 3600⟩ rfl (by decide) rfl (by decide) (by decide) rfl rfl
      (by decide) rfl).1,
   (t3kFetch_401_retry_once _ _ _ "A1" "R1" 4600000 ⟨"A2", "R2", 3600⟩
      ⟨"A3", "R3", 3600⟩ rfl (by decide) rfl (by decide) (by decide) rfl rfl
      (by decide) rfl).2.1⟩

/-! ### C3 -/

/-- C3: whenever the refresh endpoint answers non-success — in the proactive
path, in the reactive path after a 401 first response, or in the reactive path
following a successful proactive refresh — the run clears all three session
keys, emits a redirect to the auth entry point carrying the registered return
url, and the call fails with the authentication-failed error instead of
returning a response; when the failed refresh was the proactive one, no GET to
the caller url is ever issued. -/
theorem t3kFetch_refresh_failure_escalates (env : Env) (url : String)
    (store : Store) (a rt : String) (e : Int) (s0 : Session)
    (hA : store.access_token = some a) (ha : a ≠ "")
    (hR : store.refresh_token = some rt) (hrt : rt ≠ "")
    (hE : readExpiresAt store = some e) :
    (needsProactive (env.clock 0) (some e) = true → env.refreshResults 0 = none →
      (t3kFetch env url (initSt store)).1 = Except.error T3kError.authFailed ∧
      sessionCleared (t3kFetch env url (initSt store)).2.store = true ∧
      Event.redirect authUrl ∈ (t3kFetch env url (initSt store)).2.trace ∧
      numGets (t3kFetch env url (initSt store)).2.trace = 0) ∧
    (needsProactive (env.clock 0) (some e) = false → env.getStatuses 0 = 401 →
      env.refreshResults 0 = none →
      (t3kFetch env url (initSt store)).1 = Except.error T3kError.authFailed ∧
      sessionCleared (t3kFetch env url (initSt store)).2.store = true ∧
      Event.redirect authUrl ∈ (t3kFetch env url (initSt store)).2.trace ∧
      numGets (t3kFetch env url (initSt store)).2.trace = 1) ∧
    (needsProactive (env.clock 0) (some e) = true → env.refreshResults 0 = some s0 →
      s0.refresh_token ≠ "" → env.getStatuses 0 = 401 → env.refreshResults 1 = none →
      (t3kFetch env url (initSt store)).1 = Except.error T3kError.authFailed ∧
      sessionCleared (t3kFetch env url (initSt store)).2.store = true ∧
      Event.redirect authUrl ∈ (t3kFetch env url (initSt store)).2.trace ∧
      numGets (t3kFetch env url (initSt store)).2.trace = 1) := by
  refine ⟨?_, ?_, ?_⟩
  · intro hc hres
    rw [t3kFetch_proactive env url (initSt store) a hA ha (by simpa [initSt, hE] using hc)]
    rw [refreshStep_fail env a rt _ (by simp [initSt, hR]) hrt
      (by simpa [initSt] using hres)]
    simp [initSt, sessionCleared, clearTokens, numGets, isGet]
  · intro hc h401 hres
    rw [t3kFetch_noProactive env url (initSt store) a hA ha (by simpa [initSt, hE] using hc)]
    simp only [initSt]
    rw [afterGetToken_401_fail env url a rt _ (by simpa using h401)
      (by simpa using hR) hrt (by simpa using hres)]
    simp [sessionCleared, clearTokens, numGets, isGet]
  · intro hc hres0 hs0 h401 hres1
    rw [t3kFetch_proactive env url (initSt store) a hA ha (by simpa [initSt, hE] using hc)]
    rw [refreshStep_ok env a rt s0 _ (by simp [initSt, hR]) hrt
      (by simpa [initSt] using hres0)]
    simp only [initSt, List.nil_append]
    rw [afterGetToken_401_fail env url s0.access_token s0.refresh_token _
      (by simpa using h401) (by simp [putSession]) hs0 (by simpa using hres1)]
    simp [sessionCleared, clearTokens, putSession, numGets, isGet]

/-- Witness for C3: a concrete proactive refresh rejected by the endpoint
clears the store, redirects, fails the call, and issues no GET. -/
theorem t3kFetch_refresh_failure_escalates_witness :
    (t3kFetch ⟨fun _ => 5000000, fun _ => none, fun _ => 200, none⟩
      "https://www.tone3000.com/api/v1/user"
      (initSt ⟨some "A1", some "R1", some "4600000", none⟩)).1 =
      Except.error T3kError.authFailed ∧
    sessionCleared (t3kFetch ⟨fun _ => 5000000, fun _ => none, fun _ => 200, none⟩
      "https://www.tone3000.com/api/v1/user"
      (initSt ⟨some "A1", some "R1", some "4600000", none⟩)).2.store = true ∧
    Event.redirect authUrl ∈ (t3kFetch ⟨fun _ => 5000000, fun _ => none,
      fun _ => 200, none⟩ "https://www.tone3000.com/api/v1/user"
      (initSt ⟨some "A1", some "R1", some "4600000", none⟩)).2.trace ∧
    numGets (t3kFetch ⟨fun _ => 5000000, fun _ => none, fun _ => 200, none⟩
      "https://www.tone3000.com/api/v1/user"
      (initSt ⟨some "A1", some "R1", some "4600000", none⟩)).2.trace = 0 :=
  (t3kFetch_refresh_failure_escalates _ _ _ "A1" "R1" 4600000 ⟨"", "", 0⟩
    rfl (by decide) rfl (by decide) (by decide)).1 (by decide) rfl

/-! ### Helper lemmas for the shape of results -/

lemma afterGetToken_result (env : Env) (url a1 : String) (st : St) :
    (afterGetToken env url a1 st).1 = Except.error T3kError.authFailed ∨
    ∃ n, (afterGetToken env url a1 st).1 = Except.ok (Resp.mk n) := by
  unfold afterGetToken
  simp only [emit]
  by_cases h : env.getStatuses st.getIdx = 401
  · rw [if_pos h]
    rcases hrs : refreshStep env a1 (⟨st.store, st.clockIdx, st.refreshIdx, st.getIdx + 1, st.trace ++ [Event.getReq url ("Bearer " ++ a1)]⟩ : St) with ⟨res, st5⟩
    cases res with
    | error u => simp
    | ok tok => exact Or.inr ⟨env.getStatuses st5.getIdx, by simp⟩
  · rw [if_neg h]
    exact Or.inr ⟨_, rfl⟩

lemma t3kFetch_ne_noAccess_of_truthy (env : Env) (url : String) (st : St)
    (a : String) (hA : st.store.access_token = some a) (ha : a ≠ "") :
    (t3kFetch env url st).1 ≠ Except.error T3kError.noAccessToken := by
  by_cases hc : needsProactive (env.clock st.clockIdx) (readExpiresAt st.store) = true
  · rw [t3kFetch_proactive env url st a hA ha hc]
    rcases hrs : refreshStep env a { st with clockIdx := st.clockIdx + 1 } with ⟨res, st2⟩
    cases res with
    | error u => simp
    | ok tok =>
        rcases afterGetToken_result env url tok st2 with h | ⟨n, h⟩ <;> simp [h]
  · rw [t3kFetch_noProactive env url st a hA ha (by simpa using hc)]
    rcases afterGetToken_result env url a { st with clockIdx := st.clockIdx + 1 }
      with h | ⟨n, h⟩ <;> simp [h]

/-! ### C4 -/

/-- C4 counterexample: with a partial session — access token present, refresh
token absent, expires_at present and far in the future — the call does not
fail with the unauthenticated error and a network GET is made, contradicting
the claim that any incomplete session is treated as absent and fails
immediately with no network call. -/
theorem t3kFetch_partial_session_proceeds :
    (t3kFetch ⟨fun _ => 1010000, fun _ => none, fun _ => 200, none⟩
      "https://www.tone3000.com/api/v1/user"
      (initSt ⟨some "A1", none, some "4600000", none⟩)).1 =
      Except.ok (Resp.mk 200) ∧
    numGets (t3kFetch ⟨fun _ => 1010000, fun _ => none, fun _ => 200, none⟩
      "https://www.tone3000.com/api/v1/user"
      (initSt ⟨some "A1", none, some "4600000", none⟩)).2.trace = 1 :=
  ⟨rfl, by decide⟩

/-- C4 amended: the call fails immediately with the unauthenticated error, with
the state untouched and hence no network call, exactly when the stored access
token is absent or empty; the other two session keys play no role in this
check, so a partial session that still has an access token proceeds. -/
theorem t3kFetch_unauthenticated_iff_no_access (env : Env) (url : String)
    (store : Store) :
    ((t3kFetch env url (initSt store)).1 = Except.error T3kError.noAccessToken ↔
      truthy store.access_token = false) ∧
    (truthy store.access_token = false →
      t3kFetch env url (initSt store) = (Except.error T3kError.noAccessToken, initSt store)) := by
  constructor
  · constructor
    · intro h
      rcases hacc : store.access_token with _ | a
      · simp [truthy]
      · by_contra hT
        have ha : a ≠ "" := by
          intro he
          exact hT (by simp [truthy, hacc, he])
        exact t3kFetch_ne_noAccess_of_truthy env url (initSt store) a
          (by simpa [initSt] using hacc) ha h
    · intro h
      rw [t3kFetch_noAccess env url _ (by simpa [initSt] using h)]
  · intro h
    exact t3kFetch_noAccess env url _ (by simpa [initSt] using h)

/-- Witness for the amended C4: a store with no access token at all fails
immediately with the unauthenticated error and an untouched state. -/
theorem t3kFetch_unauthenticated_iff_no_access_witness :
    t3kFetch ⟨fun _ => 1010000, fun _ => none, fun _ => 200, none⟩
      "https://www.tone3000.com/api/v1/user"
      (initSt ⟨none, some "R1", some "4600000", none⟩) =
      (Except.error T3kError.noAccessToken,
       initSt ⟨none, some "R1", some "4600000", none⟩) :=
  (t3kFetch_unauthenticated_iff_no_access _ _ _).2 (by decide)

/-! ### C5 -/

/-- C5 counterexample: a refresh needed while no refresh token is stored fails
the call, but the store is not cleared (the access token survives) and no
redirect to the auth entry point is emitted, contradicting the claimed
escalation identical to a rejected refresh. -/
theorem t3kFetch_no_refresh_token_no_escalation_cex :
    (t3kFetch ⟨fun _ => 1010000, fun _ => none, fun _ => 200, none⟩
      "https://www.tone3000.com/api/v1/user"
      (initSt ⟨some "A1", none, none, none⟩)).1 = Except.error T3kError.authFailed ∧
    (t3kFetch ⟨fun _ => 1010000, fun _ => none, fun _ => 200, none⟩
      "https://www.tone3000.com/api/v1/user"
      (initSt ⟨some "A1", none, none, none⟩)).2.store.access_token = some "A1" ∧
    Event.redirect authUrl ∉ (t3kFetch ⟨fun _ => 1010000, fun _ => none,
      fun _ => 200, none⟩ "https://www.tone3000.com/api/v1/user"
      (initSt ⟨some "A1", none, none, none⟩)).2.trace :=
  ⟨rfl, rfl, by decide⟩

/-- C5 amended: when a refresh is needed (proactively, or reactively after a
401) and the store holds no (truthy) refresh token, the refresh sub-procedure
fails and the enclosing call fails with the authentication-failed error, but —
unlike a refresh rejected by the endpoint — the Token Store is left exactly as
it was, no redirect is emitted, and no refresh POST is sent. -/
theorem t3kFetch_no_refresh_token_fails_quietly (env : Env) (url : String)
    (store : Store) (a : String) (e : Int)
    (hA : store.access_token = some a) (ha : a ≠ "")
    (hT : truthy store.refresh_token = false)
    (hE : readExpiresAt store = some e) :
    (needsProactive (env.clock 0) (some e) = true →
      t3kFetch env url (initSt store) =
        (Except.error T3kError.authFailed, ⟨store, 1, 0, 0, []⟩)) ∧
    (needsProactive (env.clock 0) (some e) = false → env.getStatuses 0 = 401 →
      t3kFetch env url (initSt store) =
        (Except.error T3kError.authFailed,
         ⟨store, 1, 0, 1, [Event.getReq url ("Bearer " ++ a)]⟩)) := by
  constructor
  · intro hc
    rw [t3kFetch_proactive env url (initSt store) a hA ha (by simpa [initSt, hE] using hc)]
    rw [refreshStep_noToken env a _ (by simpa [initSt] using hT)]
    simp [initSt]
  · intro hc h401
    rw [t3kFetch_noProactive env url (initSt store) a hA ha (by simpa [initSt, hE] using hc)]
    simp only [initSt]
    rw [afterGetToken_401_noToken env url a _ (by simpa using h401)
      (by simpa using hT)]
    simp

/-- Witness for the amended C5: concrete proactive-refresh-needed call with no
refresh token fails with the state untouched. -/
theorem t3kFetch_no_refresh_token_fails_quietly_witness :
    t3kFetch ⟨fun _ => 1010000, fun _ => none, fun _ => 200, none⟩
      "https://www.tone3000.com/api/v1/user"
      (initSt ⟨some "A1", none, none, none⟩) =
      (Except.error T3kError.authFailed,
       ⟨⟨some "A1", none, none, none⟩, 1, 0, 0, []⟩) :=
  (t3kFetch_no_refresh_token_fails_quietly _ _ _ "A1" 0 rfl (by decide)
    (by decide) (by decide)).1 (by decide)

/-! ### C6 -/

/-- C6: any first response whose status is not 401 — 403, 404, any 5xx — is
returned to the caller untouched: exactly one GET to the caller url is
performed, no refresh POST follows it, and the result is that first response,
whether or not a proactive refresh preceded the GET. -/
theorem t3kFetch_non401_untouched (env : Env) (url : String) (store : Store)
    (a rt : String) (e : Int) (s0 : Session)
    (hA : store.access_token = some a) (ha : a ≠ "")
    (hR : store.refresh_token = some rt) (hrt : rt ≠ "")
    (hE : readExpiresAt store = some e)
    (hs : ¬ env.getStatuses 0 = 401) :
    (needsProactive (env.clock 0) (some e) = false →
      t3kFetch env url (initSt store) =
        (Except.ok (Resp.mk (env.getStatuses 0)),
         ⟨store, 1, 0, 1, [Event.getReq url ("Bearer " ++ a)]⟩)) ∧
    (needsProactive (env.clock 0) (some e) = true → env.refreshResults 0 = some s0 →
      t3kFetch env url (initSt store) =
        (Except.ok (Resp.mk (env.getStatuses 0)),
         ⟨putSession store s0 (env.clock 1), 2, 1, 1,
          [Event.refreshPost rt a, Event.getReq url ("Bearer " ++ s0.access_token)]⟩)) := by
  constructor
  · intro hc
    rw [t3kFetch_noProactive env url (initSt store) a hA ha (by simpa [initSt, hE] using hc)]
    simp only [initSt]
    rw [afterGetToken_not401 env url a _ (by simpa using hs)]
    simp
  · intro hc hres
    rw [t3kFetch_proactive env url (initSt store) a hA ha (by simpa [initSt, hE] using hc)]
    rw [refreshStep_ok env a rt s0 _ (by simp [initSt, hR]) hrt
      (by simpa [initSt] using hres)]
    simp only [initSt, List.nil_append]
    rw [afterGetToken_not401 env url s0.access_token _ (by simpa using hs)]
    simp

/-- Witness for C6: a concrete 403 first response is returned untouched after a
single GET. -/
theorem t3kFetch_non401_untouched_witness :
    t3kFetch ⟨fun _ => 1010000, fun _ => none, fun _ => 403, none⟩
      "https://www.tone3000.com/api/v1/user"
      (initSt ⟨some "A1", some "R1", some "4600000", none⟩) =
      (Except.ok (Resp.mk 403),
       ⟨⟨some "A1", some "R1", some "4600000", none⟩, 1, 0, 1,
        [Event.getReq "https://www.tone3000.com/api/v1/user" "Bearer A1"]⟩) :=
  (t3kFetch_non401_untouched _ _ _ "A1" "R1" 4600000 ⟨"", "", 0⟩ rfl (by decide)
    rfl (by decide) (by decide) (by decide)).1 (by decide)

/-! ### C7 -/

/-- C7: whenever a session is stored — by the refresh sub-procedure on any
successful refresh, or by handleAuth at the initial api_key exchange — the
persisted expires_at entry is exactly the string of the storage-time Date.now
reading plus expires_in * 1000, recomputed from the fresh clock reading
consumed at the moment of storage. -/
theorem expires_at_recomputed_at_storage (env : Env) :
    (∀ (st : St) (a rt : String) (s : Session),
      st.store.refresh_token = some rt → rt ≠ "" →
      env.refreshResults st.refreshIdx = some s →
      (refreshStep env a st).2.store.expires_at =
        some (toString (env.clock st.clockIdx + s.expires_in * 1000))) ∧
    (∀ (st : St) (s : Session), env.sessionResult = some s →
      (handleAuth env st).2.store.expires_at =
        some (toString (env.clock st.clockIdx + s.expires_in * 1000))) := by
  constructor
  · intro st a rt s hR hrt hres
    rw [refreshStep_ok env a rt s st hR hrt hres]
    simp [putSession]
  · intro st s hres
    unfold handleAuth
    rw [hres]
    simp [putSession, dateNow]

/-- Witness for C7: a concrete successful refresh stores
expires_at = String(now + 3600 * 1000). -/
theorem expires_at_recomputed_at_storage_witness :
    (refreshStep ⟨fun _ => 1000000, fun _ => some ⟨"A2", "R2", 3600⟩,
        fun _ => 200, none⟩ "A1"
      (initSt ⟨some "A1", some "R1", some "4600000", none⟩)).2.store.expires_at =
      some (toString ((1000000 : Int) + 3600 * 1000)) :=
  (expires_at_recomputed_at_storage _).1 _ "A1" "R1" ⟨"A2", "R2", 3600⟩ rfl
    (by decide) rfl

/-! ### C8 -/

/-- C8: on a successful refresh, the store already holds the full new session
(new access token, new refresh token, recomputed expires_at) when the
following GET is emitted, and that GET carries the Bearer header of the new
access token: in the reactive path the trace is exactly first GET, refresh
POST, reissued GET with the new token, and the final store is the refreshed
session; stated alike for the proactive path and its continued GET. Since no
store write follows the final GET, the final store is the store the GET was
sent under. -/
theorem refresh_updates_store_before_get (env : Env) (url : String)
    (store : Store) (a rt : String) (e : Int) (s0 : Session)
    (hA : store.access_token = some a) (ha : a ≠ "")
    (hR : store.refresh_token = some rt) (hrt : rt ≠ "")
    (hE : readExpiresAt store = some e) :
    (needsProactive (env.clock 0) (some e) = false → env.getStatuses 0 = 401 →
      env.refreshResults 0 = some s0 →
      t3kFetch env url (initSt store) =
        (Except.ok (Resp.mk (env.getStatuses 1)),
         ⟨putSession store s0 (env.clock 1), 2, 1, 2,
          [Event.getReq url ("Bearer " ++ a), Event.refreshPost rt a,
           Event.getReq url ("Bearer " ++ s0.access_token)]⟩)) ∧
    (needsProactive (env.clock 0) (some e) = true → ¬ env.getStatuses 0 = 401 →
      env.refreshResults 0 = some s0 →
      t3kFetch env url (initSt store) =
        (Except.ok (Resp.mk (env.getStatuses 0)),
         ⟨putSession store s0 (env.clock 1), 2, 1, 1,
          [Event.refreshPost rt a,
           Event.getReq url ("Bearer " ++ s0.access_token)]⟩)) := by
  constructor
  · intro hc h401 hres
    rw [t3kFetch_noProactive env url (initSt store) a hA ha (by simpa [initSt, hE] using hc)]
    simp only [initSt]
    rw [afterGetToken_401_ok env url a rt s0 _
      (by simpa using h401) (by simpa using hR) hrt (by simpa using hres)]
    simp
  · intro hc hs hres
    rw [t3kFetch_proactive env url (initSt store) a hA ha (by simpa [initSt, hE] using hc)]
    rw [refreshStep_ok env a rt s0 _ (by simp [initSt, hR]) hrt
      (by simpa [initSt] using hres)]
    simp only [initSt, List.nil_append]
    rw [afterGetToken_not401 env url s0.access_token _ (by simpa using hs)]
    simp

/-- Witness for C8: the spec scenario — 401 then refresh yields A2/R2, retried
GET carries Bearer A2 and the store afterwards holds R2. -/
theorem refresh_updates_store_before_get_witness :
    t3kFetch ⟨fun _ => 1000000, fun _ => some ⟨"A2", "R2", 3600⟩,
        fun i => if i = 0 then 401 else 200, none⟩
      "https://www.tone3000.com/api/v1/user"
      (initSt ⟨some "A1", some "R1", some "4600000", none⟩) =
      (Except.ok (Resp.mk 200),
       ⟨putSession ⟨some "A1", some "R1", some "4600000", none⟩
          ⟨"A2", "R2", 3600⟩ 1000000, 2, 1, 2,
        [Event.getReq "https://www.tone3000.com/api/v1/user" "Bearer A1",
         Event.refreshPost "R1" "A1",
         Event.getReq "https://www.tone3000.com/api/v1/user" "Bearer A2"]⟩) :=
  (refresh_updates_store_before_get _ _ _ "A1" "R1" 4600000 ⟨"A2", "R2", 3600⟩
    rfl (by decide) rfl (by decide) (by decide)).1 (by decide) rfl rfl

/-! ### C9 -/

/-- C9 counterexample: with expires_at the non-numeric string "abc" (whose
parseInt is NaN) and a large current time, no refresh POST is ever issued and
the GET proceeds with the stored token, contradicting the claim that an
expires_at that does not parse as an integer is treated as 0 and always
triggers the proactive-refresh branch. -/
theorem t3kFetch_nan_expiry_no_refresh_cex :
    numRefreshes (t3kFetch ⟨fun _ => 1010000, fun _ => none, fun _ => 200, none⟩
      "https://www.tone3000.com/api/v1/user"
      (initSt ⟨some "A1", some "R1", some "abc", none⟩)).2.trace = 0 ∧
    (t3kFetch ⟨fun _ => 1010000, fun _ => none, fun _ => 200, none⟩
      "https://www.tone3000.com/api/v1/user"
      (initSt ⟨some "A1", some "R1", some "abc", none⟩)).1 =
      Except.ok (Resp.mk 200) :=
  ⟨by decide, rfl⟩

/-- C9 amended: a missing (or empty) expires_at entry is defaulted to the
string 0 and parses to 0, so with a nonnegative clock the proactive branch is
always taken — exactly one refresh POST before any GET; but a non-empty entry
that does not parse as a number yields NaN, every comparison with which is
false, so the proactive branch is never taken — no refresh POST before the
GET, even though the claim expects one. -/
theorem t3kFetch_unparsable_expiry (env : Env) (url : String) (store : Store)
    (a rt : String)
    (hA : store.access_token = some a) (ha : a ≠ "")
    (hR : store.refresh_token = some rt) (hrt : rt ≠ "") :
    (store.expires_at = none ∨ store.expires_at = some "" → 0 ≤ env.clock 0 →
      refreshesBeforeFirstGet (t3kFetch env url (initSt store)).2.trace = 1) ∧
    (∀ s, store.expires_at = some s → s ≠ "" → parseIntJS s = none →
      refreshesBeforeFirstGet (t3kFetch env url (initSt store)).2.trace = 0) := by
  constructor
  · intro hnone hpos
    rw [rbfg_t3kFetch env url store a rt hA ha hR hrt]
    have h0 : readExpiresAt store = some 0 := by
      rcases hnone with h | h <;>
        · simp [readExpiresAt, h, jsOrStr]
          decide
    rw [h0]
    rw [if_pos (by simp [needsProactive]; omega)]
  · intro s hsome hne hnan
    rw [rbfg_t3kFetch env url store a rt hA ha hR hrt]
    have h0 : readExpiresAt store = none := by
      simp [readExpiresAt, hsome, jsOrStr, hne, hnan]
    rw [h0]
    rw [if_neg (by simp [needsProactive])]

/-- Witness for the amended C9: a missing expires_at forces one proactive
refresh before the GET. -/
theorem t3kFetch_unparsable_expiry_witness :
    refreshesBeforeFirstGet (t3kFetch ⟨fun _ => 1010000,
      fun _ => some ⟨"A2", "R2", 3600⟩, fun _ => 200, none⟩
      "https://www.tone3000.com/api/v1/user"
      (initSt ⟨some "A1", some "R1", none, none⟩)).2.trace = 1 :=
  (t3kFetch_unparsable_expiry _ _ _ "A1" "R1" rfl (by decide) rfl (by decide)).1
    (Or.inl rfl) (by decide)

/-! ### C10 -/

/-- C10: on the happy path — expires_at parses to e, the Date.now reading
satisfies now <= e - 30000, and the first response is not a 401 — the call
returns the first response, the trace is the single GET with the stored
access token, and the returned store is exactly the input store: every entry,
the api_key cache included, is unchanged. -/
theorem t3kFetch_happy_path_store_unchanged (env : Env) (url : String)
    (store : Store) (a : String) (e : Int)
    (hA : store.access_token = some a) (ha : a ≠ "")
    (hE : readExpiresAt store = some e)
    (hnow : env.clock 0 ≤ e - 30000)
    (hs : ¬ env.getStatuses 0 = 401) :
    (t3kFetch env url (initSt store)).2.store = store ∧
    (t3kFetch env url (initSt store)).1 = Except.ok (Resp.mk (env.getStatuses 0)) ∧
    (t3kFetch env url (initSt store)).2.trace = [Event.getReq url ("Bearer " ++ a)] := by
  rw [t3kFetch_noProactive env url (initSt store) a hA ha
    (by simp [initSt, hE, needsProactive]; omega)]
  simp only [initSt]
  rw [afterGetToken_not401 env url a _ (by simpa using hs)]
  simp

/-- Witness for C10: a concrete in-margin call with a 200 response leaves the
store untouched. -/
theorem t3kFetch_happy_path_store_unchanged_witness :
    (t3kFetch ⟨fun _ => 1010000, fun _ => none, fun _ => 200, none⟩
      "https://www.tone3000.com/api/v1/user"
      (initSt ⟨some "A1", some "R1", some "4600000", some "K1"⟩)).2.store =
      ⟨some "A1", some "R1", some "4600000", some "K1"⟩ :=
  (t3kFetch_happy_path_store_unchanged _ _ _ "A1" 4600000 rfl (by decide)
    (by decide) (by decide) (by decide)).1

end T3k
